import Mathlib

/-!
Shallow embedding of the go-lox expression pipeline (scanner, parser,
interpreter, AST printer) from the repository sources
`scanner.go`, the parser/AST file, and `interpreter.go`.

Modelling conventions:
* Go `float64` is modelled by `GoFloat`: exact rationals for finite values
  plus the IEEE special values `nan` and signed infinities, with IEEE
  comparison semantics (in particular `nan` compares unequal to everything,
  including itself, which is what Go's `==` / `reflect.DeepEqual` do on
  `float64`). Finite arithmetic is exact rational arithmetic (rounding is
  not modelled; no claim here depends on rounding).
* Go `interface{}` values flowing through the scanner, parser and
  interpreter are modelled by the closed union `GoValue`
  (nil / float64 / string / bool), the only dynamic types the code creates.
* Go panics caught by `recover` in `Parser.Parse` / `Interpreter.interpret`
  are modelled with `Except`: a panic is an `Except.error` that propagates
  past the rest of the computation, exactly like stack unwinding.
* Source text is a `List Char` (the sources the claims mention are ASCII,
  so Go's byte indexing coincides with character indexing).
-/

/-- Token kinds, from the `TokenType` enumeration in `scanner.go`. -/
inductive TokenType where
  | LEFT_PAREN | RIGHT_PAREN | LEFT_BRACE | RIGHT_BRACE
  | COMMA | DOT | MINUS | PLUS | SEMICOLON | SLASH | STAR
  | BANG | BANG_EQUAL | EQUAL | EQUAL_EQUAL
  | GREATER | GREATER_EQUAL | LESS | LESS_EQUAL
  | IDENTIFIER | STRING | NUMBER
  | AND | CLASS | ELSE | FALSE | FUN | FOR | IF | NIL | OR
  | PRINT | RETURN | SUPER | THIS | TRUE | VAR | WHILE
  | EOF
  deriving DecidableEq, Repr

/-- Rendering of a `TokenType` as produced by the generated `stringer`
method (`//go:generate stringer -type TokenType`): the constant's name. -/
def TokenType.str : TokenType → String
  | .LEFT_PAREN => "LEFT_PAREN" | .RIGHT_PAREN => "RIGHT_PAREN"
  | .LEFT_BRACE => "LEFT_BRACE" | .RIGHT_BRACE => "RIGHT_BRACE"
  | .COMMA => "COMMA" | .DOT => "DOT" | .MINUS => "MINUS" | .PLUS => "PLUS"
  | .SEMICOLON => "SEMICOLON" | .SLASH => "SLASH" | .STAR => "STAR"
  | .BANG => "BANG" | .BANG_EQUAL => "BANG_EQUAL"
  | .EQUAL => "EQUAL" | .EQUAL_EQUAL => "EQUAL_EQUAL"
  | .GREATER => "GREATER" | .GREATER_EQUAL => "GREATER_EQUAL"
  | .LESS => "LESS" | .LESS_EQUAL => "LESS_EQUAL"
  | .IDENTIFIER => "IDENTIFIER" | .STRING => "STRING" | .NUMBER => "NUMBER"
  | .AND => "AND" | .CLASS => "CLASS" | .ELSE => "ELSE" | .FALSE => "FALSE"
  | .FUN => "FUN" | .FOR => "FOR" | .IF => "IF" | .NIL => "NIL" | .OR => "OR"
  | .PRINT => "PRINT" | .RETURN => "RETURN" | .SUPER => "SUPER"
  | .THIS => "THIS" | .TRUE => "TRUE" | .VAR => "VAR" | .WHILE => "WHILE"
  | .EOF => "EOF"

/-- Model of Go `float64`: exact rationals for finite values plus the IEEE
special values. Finite arithmetic is exact (rounding not modelled). -/
inductive GoFloat where
  | finite (q : ℚ)
  | inf (negative : Bool)
  | nan
  deriving DecidableEq, Repr

namespace GoFloat

/-- IEEE negation of a `float64`. -/
def neg : GoFloat → GoFloat
  | finite q => finite (-q)
  | inf s => inf (!s)
  | nan => nan

/-- IEEE addition of `float64` values (exact on finite operands). -/
def add : GoFloat → GoFloat → GoFloat
  | nan, _ => nan
  | _, nan => nan
  | inf s, inf t => if s = t then inf s else nan
  | inf s, finite _ => inf s
  | finite _, inf t => inf t
  | finite a, finite b => finite (a + b)

/-- IEEE subtraction, `a - b = a + (-b)`. -/
def sub (a b : GoFloat) : GoFloat := a.add b.neg

/-- IEEE multiplication of `float64` values (exact on finite operands). -/
def mul : GoFloat → GoFloat → GoFloat
  | nan, _ => nan
  | _, nan => nan
  | inf s, inf t => inf (s != t)
  | inf s, finite b => if b = 0 then nan else inf (s != decide (b < 0))
  | finite a, inf t => if a = 0 then nan else inf (t != decide (a < 0))
  | finite a, finite b => finite (a * b)

/-- IEEE division of `float64` values: `0/0` is `nan`, a nonzero finite
value divided by zero is a signed infinity, otherwise exact. This is the
semantics of Go's `/` on `float64` (interpreter.go divides without any
zero check; the spec notes division by zero yields infinity or NaN). -/
def div : GoFloat → GoFloat → GoFloat
  | nan, _ => nan
  | _, nan => nan
  | inf _, inf _ => nan
  | inf s, finite b => inf (s != decide (b < 0))
  | finite _, inf _ => finite 0
  | finite a, finite b =>
      if b = 0 then (if a = 0 then nan else inf (decide (a < 0)))
      else finite (a / b)

/-- IEEE equality on `float64` (Go `==`, and what `reflect.DeepEqual`
computes on boxed `float64` values): `nan` is unequal to everything,
including itself. -/
def goEq : GoFloat → GoFloat → Bool
  | finite a, finite b => decide (a = b)
  | inf s, inf t => s = t
  | _, _ => false

/-- IEEE `<` on `float64`: any comparison involving `nan` is false. -/
def goLt : GoFloat → GoFloat → Bool
  | nan, _ => false
  | _, nan => false
  | finite a, finite b => decide (a < b)
  | inf s, inf t => s && !t
  | inf s, finite _ => s
  | finite _, inf t => !t

/-- IEEE `<=` on `float64`: any comparison involving `nan` is false. -/
def goLe (a b : GoFloat) : Bool := a.goLt b || a.goEq b

end GoFloat

/-- The dynamic values the go-lox code stores in `interface{}`:
absent (`nil`), `float64`, `string`, `bool`. -/
inductive GoValue where
  | nilV
  | num (x : GoFloat)
  | str (s : String)
  | bool (b : Bool)
  deriving DecidableEq, Repr

/-- The `Token` record from `scanner.go` (`Type`, `Lexeme`, `Literal`,
`Line`); the `Literal interface{}` field is a `GoValue` (the scanner stores
`nil`, a `float64` or a `string` in it). `Type` is a Lean keyword, so the
field is named `typ`. -/
structure Token where
  typ : TokenType
  Lexeme : String
  Literal : GoValue
  Line : Nat
  deriving DecidableEq, Repr

/-- The expression AST from the parser file: `Literal`, `Unary`, `Binary`,
`Grouping` (the visitor indirection is replaced by direct pattern matches,
which is exhaustive over the same closed node set). -/
inductive Expr where
  | Literal (Value : GoValue)
  | Unary (Operator : Token) (Right : Expr)
  | Binary (Operator : Token) (Left : Expr) (Right : Expr)
  | Grouping (E : Expr)
  deriving DecidableEq, Repr

/-- `RuntimeError` from `interpreter.go`. -/
structure RuntimeError where
  message : String
  deriving DecidableEq, Repr

/-- Rendering of a `GoValue` with Go's `%v` verb, as used in error
messages and the AST printer. Finite non-integral floats are rendered as
`num/den` (an idealization: Go prints a decimal expansion; no claim
depends on this case), integral floats print their integer digits,
matching Go. -/
def GoValue.fmt : GoValue → String
  | .nilV => "<nil>"
  | .num (.finite q) => if q.den = 1 then toString q.num
      else toString q.num ++ "/" ++ toString q.den
  | .num (.inf s) => if s then "-Inf" else "+Inf"
  | .num .nan => "NaN"
  | .str s => s
  | .bool b => if b then "true" else "false"

/-- `Token.String()` from `scanner.go`: `"%s %s %v"` of type, lexeme,
literal. -/
def Token.str (t : Token) : String :=
  t.typ.str ++ " " ++ t.Lexeme ++ " " ++ t.Literal.fmt

/-- `isTruthy` from `interpreter.go`: `nil` is false, a `bool` is itself,
everything else is true. -/
def isTruthy : GoValue → Bool
  | .nilV => false
  | .bool b => b
  | _ => true

/-- `isEqual` from `interpreter.go`: both `nil` → true; only `a` `nil` →
false; otherwise `reflect.DeepEqual`, which on these dynamic types is:
false for distinct types (including non-nil vs nil), string/bool equality,
and IEEE `==` on `float64`. -/
def isEqual : GoValue → GoValue → Bool
  | .nilV, .nilV => true
  | .nilV, _ => false
  | .num a, .num b => a.goEq b
  | .str a, .str b => decide (a = b)
  | .bool a, .bool b => decide (a = b)
  | _, _ => false

/-- Error message of `checkNumberOperands` in `interpreter.go`. -/
def numsMsg (t : Token) : String :=
  "Operands must be numbers: " ++ t.str

/-- Error message of `checkNumberOperand` in `interpreter.go`. -/
def numMsg (t : Token) : String :=
  "Operand must be number: " ++ t.str

/-- Error message of the `PLUS` case of `visitBinaryExpr`. -/
def plusMsg (t : Token) : String :=
  "Operands must be two numbers or two strings: " ++ t.str

/-- `checkNumberOperands` from `interpreter.go`: panics (here: errors)
unless both operands are `float64`. -/
def checkNumberOperands (t : Token) : GoValue → GoValue → Except RuntimeError Unit
  | .num _, .num _ => .ok ()
  | _, _ => .error ⟨numsMsg t⟩

/-- The `Interpreter` evaluator: `evaluate`/`visit*Expr` from
`interpreter.go` fused into one recursion (the visitor double-dispatch on
a closed node set). Panicking with `RuntimeError` is `Except.error`. -/
def eval : Expr → Except RuntimeError GoValue
  | .Literal v => .ok v
  | .Grouping e => eval e
  | .Unary op r => do
      let operand ← eval r
      match op.typ with
      | .MINUS =>
          match operand with
          | .num x => .ok (.num x.neg)
          | _ => .error ⟨numMsg op⟩
      | .BANG => .ok (.bool (!isTruthy operand))
      | _ => .ok .nilV
  | .Binary op l r => do
      let left ← eval l
      let right ← eval r
      match op.typ with
      | .MINUS => do
          let _ ← checkNumberOperands op left right
          match left, right with
          | .num a, .num b => .ok (.num (a.sub b))
          | _, _ => .error ⟨numsMsg op⟩
      | .SLASH => do
          let _ ← checkNumberOperands op left right
          match left, right with
          | .num a, .num b => .ok (.num (a.div b))
          | _, _ => .error ⟨numsMsg op⟩
      | .STAR => do
          let _ ← checkNumberOperands op left right
          match left, right with
          | .num a, .num b => .ok (.num (a.mul b))
          | _, _ => .error ⟨numsMsg op⟩
      | .PLUS =>
          match left, right with
          | .num a, .num b => .ok (.num (a.add b))
          | .str a, .str b => .ok (.str (a ++ b))
          | _, _ => .error ⟨plusMsg op⟩
      | .GREATER => do
          let _ ← checkNumberOperands op left right
          match left, right with
          | .num a, .num b => .ok (.bool (b.goLt a))
          | _, _ => .error ⟨numsMsg op⟩
      | .GREATER_EQUAL => do
          let _ ← checkNumberOperands op left right
          match left, right with
          | .num a, .num b => .ok (.bool (b.goLe a))
          | _, _ => .error ⟨numsMsg op⟩
      | .LESS => do
          let _ ← checkNumberOperands op left right
          match left, right with
          | .num a, .num b => .ok (.bool (a.goLt b))
          | _, _ => .error ⟨numsMsg op⟩
      | .LESS_EQUAL => do
          let _ ← checkNumberOperands op left right
          match left, right with
          | .num a, .num b => .ok (.bool (a.goLe b))
          | _, _ => .error ⟨numsMsg op⟩
      | .EQUAL_EQUAL => .ok (.bool (isEqual left right))
      | .BANG_EQUAL => .ok (.bool (!isEqual left right))
      | .OR => .ok (.bool (isTruthy left || isTruthy right))
      | .AND => .ok (.bool (isTruthy left && isTruthy right))
      | _ => .ok .nilV

/-! ## Scanner (scanner.go) -/

/-- `isDigit` from `scanner.go`. -/
def isDigit (c : Char) : Bool := '0' ≤ c && c ≤ '9'

/-- `isAlpha` from `scanner.go`. -/
def isAlpha (c : Char) : Bool :=
  ('a' ≤ c && c ≤ 'z') || ('A' ≤ c && c ≤ 'Z') || c = '_'

/-- `isAlphaNumeric` from `scanner.go`. -/
def isAlphaNumeric (c : Char) : Bool := isAlpha c || isDigit c

/-- The `keywords` map from `scanner.go`. -/
def keywords : String → Option TokenType
  | "and" => some .AND | "class" => some .CLASS | "else" => some .ELSE
  | "false" => some .FALSE | "fun" => some .FUN | "for" => some .FOR
  | "if" => some .IF | "nil" => some .NIL | "or" => some .OR
  | "print" => some .PRINT | "return" => some .RETURN
  | "super" => some .SUPER | "this" => some .THIS | "true" => some .TRUE
  | "var" => some .VAR | "while" => some .WHILE
  | _ => none

/-- The `Scanner` state from `scanner.go`. Go zero values: cursors and the
line counter start at 0, token and error lists empty. Errors are stored as
their formatted messages. -/
structure Scanner where
  source : List Char
  start : Nat := 0
  current : Nat := 0
  line : Nat := 0
  tokens : List Token := []
  errors : List String := []
  deriving Repr

namespace Scanner

/-- `Scanner.error`: appends `"Line: <line>, <message>"`. -/
def error (s : Scanner) (message : String) : Scanner :=
  { s with errors := s.errors ++ ["Line: " ++ toString s.line ++ ", " ++ message] }

/-- `Scanner.isAtEnd`. -/
def isAtEnd (s : Scanner) : Bool := s.source.length ≤ s.current

/-- `Scanner.advance`: returns the current character and moves the cursor.
Go indexes unconditionally (panicking out of range); every call site
guarantees the index is in range, so the `getD` default is never consulted
in a real run. -/
def advance (s : Scanner) : Char × Scanner :=
  (s.source.getD s.current (Char.ofNat 0), { s with current := s.current + 1 })

/-- `Scanner.peek`: the current character, or NUL at end of input. -/
def peek (s : Scanner) : Char :=
  if s.isAtEnd then Char.ofNat 0 else s.source.getD s.current (Char.ofNat 0)

/-- `Scanner.peekNext`. -/
def peekNext (s : Scanner) : Char :=
  if s.source.length ≤ s.current + 1 then Char.ofNat 0
  else s.source.getD (s.current + 1) (Char.ofNat 0)

/-- `Scanner.match`(`expected`): conditional advance. (`match` is a Lean
keyword, hence the name.) -/
def matchChar (s : Scanner) (expected : Char) : Bool × Scanner :=
  if s.isAtEnd then (false, s)
  else if s.source.getD s.current (Char.ofNat 0) ≠ expected then (false, s)
  else (true, (s.advance).2)

/-- The current lexeme `s.source[s.start:s.current]`. -/
def lexeme (s : Scanner) : String :=
  String.mk ((s.source.drop s.start).take (s.current - s.start))

/-- `Scanner.addTokenLiteral`. -/
def addTokenLiteral (s : Scanner) (typ : TokenType) (literal : GoValue) : Scanner :=
  { s with tokens := s.tokens ++ [{ typ := typ, Lexeme := s.lexeme, Literal := literal, Line := s.line }] }

/-- `Scanner.addToken`. -/
def addToken (s : Scanner) (typ : TokenType) : Scanner :=
  s.addTokenLiteral typ .nilV

/-- The identifier-consuming loop of `Scanner.identifier`
(`for isAlphaNumeric(s.peek()) { s.advance() }`), with explicit fuel.
Each iteration advances the cursor by one, so fuel
`s.source.length + 1` (what every caller passes) can never run out. -/
def identifierLoop : Nat → Scanner → Scanner
  | 0, s => s
  | fuel + 1, s =>
      if isAlphaNumeric s.peek then identifierLoop fuel (s.advance).2 else s

/-- `Scanner.identifier`: consume the run, then keyword lookup. -/
def identifier (s : Scanner) : Scanner :=
  let s := identifierLoop (s.source.length + 1) s
  match keywords s.lexeme with
  | some typ => s.addToken typ
  | none => s.addToken .IDENTIFIER

/-- The character-consuming loop of `Scanner.string`
(`for s.peek() != '"' && !s.isAtEnd() { ... s.advance() }`), with fuel as
in `identifierLoop`. -/
def stringLoop : Nat → Scanner → Scanner
  | 0, s => s
  | fuel + 1, s =>
      if s.peek ≠ '"' && !s.isAtEnd then
        stringLoop fuel
          ((if s.peek = '\n' then { s with line := s.line + 1 } else s).advance).2
      else s

/-- `Scanner.string`: consume to the closing quote; unterminated strings
are a lexical error and emit no token; otherwise the literal is the
contents `s.source[s.start+1:s.current-1]` without the quotes. -/
def stringFn (s : Scanner) : Scanner :=
  let s := stringLoop (s.source.length + 1) s
  if s.isAtEnd then s.error "Unterminated string."
  else
    let s := (s.advance).2
    s.addTokenLiteral .STRING
      (.str (String.mk ((s.source.drop (s.start + 1)).take ((s.current - 1) - (s.start + 1)))))

/-- The digit-consuming loop of `Scanner.number`
(`for isDigit(s.peek()) { s.advance() }`), with fuel as in
`identifierLoop`. -/
def digitsLoop : Nat → Scanner → Scanner
  | 0, s => s
  | fuel + 1, s =>
      if isDigit s.peek then digitsLoop fuel (s.advance).2 else s

/-- Decimal digits to a natural number. -/
def digitsToNat (cs : List Char) : Nat :=
  cs.foldl (fun acc c => acc * 10 + (c.toNat - '0'.toNat)) 0

/-- `strconv.ParseFloat` on the number lexemes the scanner produces
(digits with at most one interior `.`), idealized to an exact rational:
rounding to the nearest `float64` is not modelled, and the ignored error
return of `ParseFloat` has no counterpart because these lexemes are
well-formed by construction. -/
def parseNumber (cs : List Char) : ℚ :=
  match cs.splitOn '.' with
  | [w] => digitsToNat w
  | [w, f] => (digitsToNat w : ℚ) + (digitsToNat f : ℚ) / (10 ^ f.length)
  | _ => 0

/-- `Scanner.number`: integer digits, an optional fraction (a `.` is only
consumed when followed by a digit), then the decoded literal. -/
def number (s : Scanner) : Scanner :=
  let s := digitsLoop (s.source.length + 1) s
  let s :=
    if s.peek = '.' && isDigit s.peekNext then
      digitsLoop (s.source.length + 1) (s.advance).2
    else s
  s.addTokenLiteral .NUMBER (.num (.finite (parseNumber ((s.source.drop s.start).take (s.current - s.start)))))

/-- The comment-discarding loop of `Scanner.scanToken`'s `/` case
(`for s.peek() != '\n' && !s.isAtEnd() { s.advance() }`), with fuel as in
`identifierLoop`. -/
def commentLoop : Nat → Scanner → Scanner
  | 0, s => s
  | fuel + 1, s =>
      if s.peek ≠ '\n' && !s.isAtEnd then commentLoop fuel (s.advance).2 else s

/-- `Scanner.scanToken`: consume one character and dispatch on it. -/
def scanToken (s : Scanner) : Scanner :=
  let (c, s) := s.advance
  match c with
  | '(' => s.addToken .LEFT_PAREN
  | ')' => s.addToken .RIGHT_PAREN
  | '{' => s.addToken .LEFT_BRACE
  | '}' => s.addToken .RIGHT_BRACE
  | ',' => s.addToken .COMMA
  | '.' => s.addToken .DOT
  | '-' => s.addToken .MINUS
  | '+' => s.addToken .PLUS
  | ';' => s.addToken .SEMICOLON
  | '*' => s.addToken .STAR
  | '!' =>
      let (m, s) := s.matchChar '='
      if m then s.addToken .BANG_EQUAL else s.addToken .BANG
  | '=' =>
      let (m, s) := s.matchChar '='
      if m then s.addToken .EQUAL_EQUAL else s.addToken .EQUAL
  | '<' =>
      let (m, s) := s.matchChar '='
      if m then s.addToken .LESS_EQUAL else s.addToken .LESS
  | '>' =>
      let (m, s) := s.matchChar '='
      if m then s.addToken .GREATER_EQUAL else s.addToken .GREATER
  | '/' =>
      let (m, s) := s.matchChar '/'
      if m then commentLoop (s.source.length + 1) s else s.addToken .SLASH
  | ' ' => s
  | '\t' => s
  | '\r' => s
  | '\n' => { s with line := s.line + 1 }
  | '"' => s.stringFn
  | c =>
      if isDigit c then s.number
      else if isAlpha c then s.identifier
      else s.error "Unexpected character."

/-- The loop of `Scanner.ScanTokens`
(`for !s.isAtEnd() { s.start = s.current; s.scanToken() }`), with explicit
fuel; `scanToken` consumes at least one character per iteration (proved
below), so the fuel `ScanTokens` passes can never run out. -/
def scanTokensLoop : Nat → Scanner → Scanner
  | 0, s => s
  | fuel + 1, s =>
      if s.isAtEnd then s
      else scanTokensLoop fuel (scanToken { s with start := s.current })

end Scanner

/-- `Scanner.ScanTokens` applied to a fresh `NewScanner(source)`: run the
scanning loop, then append the end-of-input token (zero-valued lexeme and
literal, current line). -/
def ScanTokens (source : String) : List Token × List String :=
  let s := Scanner.scanTokensLoop (source.toList.length + 1) { source := source.toList }
  (s.tokens ++ [{ typ := .EOF, Lexeme := "", Literal := .nilV, Line := s.line }], s.errors)


/-! ## Parser (recursive-descent, from the parser/AST source file) -/

/-- `ParseError` from the parser file. -/
structure ParseError where
  message : String
  deriving DecidableEq, Repr

instance {ε α : Type} [DecidableEq ε] [DecidableEq α] : DecidableEq (Except ε α) := fun a b =>
  match a, b with
  | .error e, .error f => decidable_of_iff (e = f) (by simp)
  | .error _, .ok _ => isFalse (by simp)
  | .ok _, .error _ => isFalse (by simp)
  | .ok a, .ok b => decidable_of_iff (a = b) (by simp)

/-- The `Parser` state: the token list and the `current` cursor. -/
structure PState where
  tokens : List Token
  current : Nat := 0
  deriving DecidableEq, Repr

/-- The default token consulted by out-of-range reads. The Go code indexes
`p.tokens[p.current]` unconditionally; on a scanner-produced token list it
never reads past the final EOF token (every cursor move is guarded by
`isAtEnd`, i.e. by `peek` being EOF), so the default is never consulted
there, and making it an EOF token keeps the guards faithful. -/
def oobToken : Token := { typ := .EOF, Lexeme := "", Literal := .nilV, Line := 0 }

namespace PState

/-- `Parser.peek`. -/
def peek (p : PState) : Token := p.tokens.getD p.current oobToken

/-- `Parser.previous`. -/
def previous (p : PState) : Token := p.tokens.getD (p.current - 1) oobToken

/-- `Parser.isAtEnd`: the current token is the EOF sentinel. -/
def isAtEnd (p : PState) : Bool := p.peek.typ = .EOF

/-- `Parser.advance`: move unless at EOF; returns `previous` of the new
state. -/
def advance (p : PState) : Token × PState :=
  let p := if !p.isAtEnd then { p with current := p.current + 1 } else p
  (p.previous, p)

/-- `Parser.checkTokenType`. -/
def checkTokenType (p : PState) (tokenType : TokenType) : Bool :=
  if p.isAtEnd then false else p.peek.typ = tokenType

/-- `Parser.match`(`tokenTypes...`): try each type in order, consuming the
token on the first hit. (`match` is a Lean keyword, hence the name.) -/
def matchT (p : PState) : List TokenType → Bool × PState
  | [] => (false, p)
  | typ :: rest =>
      if p.checkTokenType typ then (true, (p.advance).2) else p.matchT rest

end PState

/-- `Parser.error`: formats `"%s %s %d at '%s'"` of the offending token's
lexeme, type, line and the message. -/
def perror (token : Token) (message : String) : ParseError :=
  ⟨token.Lexeme ++ " " ++ token.typ.str ++ " " ++ toString token.Line ++
    " at '" ++ message ++ "'"⟩

/-- `Parser.consume`: accept a token of the given type or raise the given
error. -/
def consume (p : PState) (tokenType : TokenType) (message : String) :
    Except ParseError (Token × PState) :=
  if p.checkTokenType tokenType then .ok (p.advance)
  else .error (perror p.peek message)

/-- The fuel-exhaustion error. The Go recursion needs no fuel: it
terminates because every nested call first consumes a token. `Parse`
passes fuel that is proportionally larger than the token count, so this
error cannot actually arise; it only makes the recursion structural. -/
def oofError : ParseError := ⟨"out of fuel"⟩

mutual

/-- `Parser.expression`: `expression → equality`. -/
def expression : Nat → PState → Except ParseError (Expr × PState)
  | 0, _ => .error oofError
  | fuel + 1, p => equality fuel p

/-- `Parser.equality`: `equality → comparison (("==" | "!=") comparison)*`. -/
def equality : Nat → PState → Except ParseError (Expr × PState)
  | 0, _ => .error oofError
  | fuel + 1, p => do
      let (e, p) ← comparison fuel p
      equalityLoop fuel e p

/-- The accumulation loop of `Parser.equality`: while `match(EQUAL_EQUAL,
BANG_EQUAL)`, fold `expr = Binary{Operator: previous, Left: expr, Right:
comparison()}`. -/
def equalityLoop : Nat → Expr → PState → Except ParseError (Expr × PState)
  | 0, _, _ => .error oofError
  | fuel + 1, e, p =>
      let (m, p) := p.matchT [.EQUAL_EQUAL, .BANG_EQUAL]
      if m then do
        let op := p.previous
        let (r, p) ← comparison fuel p
        equalityLoop fuel (.Binary op e r) p
      else .ok (e, p)

/-- `Parser.comparison`:
`comparison → term ((">" | ">=" | "<" | "<=") term)*`. -/
def comparison : Nat → PState → Except ParseError (Expr × PState)
  | 0, _ => .error oofError
  | fuel + 1, p => do
      let (e, p) ← term fuel p
      comparisonLoop fuel e p

/-- The accumulation loop of `Parser.comparison`. -/
def comparisonLoop : Nat → Expr → PState → Except ParseError (Expr × PState)
  | 0, _, _ => .error oofError
  | fuel + 1, e, p =>
      let (m, p) := p.matchT [.GREATER, .GREATER_EQUAL, .LESS, .LESS_EQUAL]
      if m then do
        let op := p.previous
        let (r, p) ← term fuel p
        comparisonLoop fuel (.Binary op e r) p
      else .ok (e, p)

/-- `Parser.term`: `term → factor (("+" | "-" | "or") factor)*` (note the
source really treats `or` as an additive-level operator). -/
def term : Nat → PState → Except ParseError (Expr × PState)
  | 0, _ => .error oofError
  | fuel + 1, p => do
      let (e, p) ← factor fuel p
      termLoop fuel e p

/-- The accumulation loop of `Parser.term`. -/
def termLoop : Nat → Expr → PState → Except ParseError (Expr × PState)
  | 0, _, _ => .error oofError
  | fuel + 1, e, p =>
      let (m, p) := p.matchT [.PLUS, .MINUS, .OR]
      if m then do
        let op := p.previous
        let (r, p) ← factor fuel p
        termLoop fuel (.Binary op e r) p
      else .ok (e, p)

/-- `Parser.factor`: `factor → unary (("*" | "/" | "and") unary)*` (the
source treats `and` as a multiplicative-level operator). -/
def factor : Nat → PState → Except ParseError (Expr × PState)
  | 0, _ => .error oofError
  | fuel + 1, p => do
      let (e, p) ← unary fuel p
      factorLoop fuel e p

/-- The accumulation loop of `Parser.factor`. -/
def factorLoop : Nat → Expr → PState → Except ParseError (Expr × PState)
  | 0, _, _ => .error oofError
  | fuel + 1, e, p =>
      let (m, p) := p.matchT [.STAR, .SLASH, .AND]
      if m then do
        let op := p.previous
        let (r, p) ← unary fuel p
        factorLoop fuel (.Binary op e r) p
      else .ok (e, p)

/-- `Parser.unary`: `unary → ("-" | "!") unary | primary`. -/
def unary : Nat → PState → Except ParseError (Expr × PState)
  | 0, _ => .error oofError
  | fuel + 1, p =>
      let (m, p) := p.matchT [.MINUS, .BANG]
      if !m then primary fuel p
      else do
        let op := p.previous
        let (r, p) ← unary fuel p
        .ok (.Unary op r, p)

/-- `Parser.primary`:
`primary → NUMBER | STRING | "true" | "false" | "nil" | "(" expression ")"`.
Note the source represents the `nil` literal as the *string* `"null"`. -/
def primary : Nat → PState → Except ParseError (Expr × PState)
  | 0, _ => .error oofError
  | fuel + 1, p =>
      let (m, p) := p.matchT [.NUMBER, .STRING]
      if m then .ok (.Literal p.previous.Literal, p)
      else
        let (m, p) := p.matchT [.TRUE]
        if m then .ok (.Literal (.bool true), p)
        else
          let (m, p) := p.matchT [.FALSE]
          if m then .ok (.Literal (.bool false), p)
          else
            let (m, p) := p.matchT [.NIL]
            if m then .ok (.Literal (.str "null"), p)
            else
              let (m, p) := p.matchT [.LEFT_PAREN]
              if m then do
                let (e, p) ← expression fuel p
                let (_, p) ← consume p .RIGHT_PAREN "Expect ')' after expression."
                .ok (.Grouping e, p)
              else .error (perror p.peek "Expect expression")

end

/-- `Parser.Parse` on `NewParser(tokens)`: run `expression` from cursor 0;
a raised `ParseError` is returned with no tree (the `recover` block).
The fuel bounds the call depth; each unit of nesting beyond the fixed
seven-level grammar ladder consumes a token first, so `16 * (n + 1)` can
never be exhausted on `n` tokens. -/
def Parse (tokens : List Token) : Except ParseError Expr := do
  let (e, _) ← expression (16 * (tokens.length + 1)) { tokens := tokens }
  .ok e

/-! ## AST printer (`AstPrinter` from the parser/AST source file) -/

/-- `AstPrinter.Print` / the `visit*` methods / `parenthesize`, fused into
one recursion: `(op left right)`, `(op right)`, `(group e)`, literal `%v`
(with `nil` printed as `"nil"`). -/
def printExpr : Expr → String
  | .Binary op l r =>
      "(" ++ op.Lexeme ++ " " ++ printExpr l ++ " " ++ printExpr r ++ ")"
  | .Unary op r => "(" ++ op.Lexeme ++ " " ++ printExpr r ++ ")"
  | .Grouping e => "(group " ++ printExpr e ++ ")"
  | .Literal v => if v = .nilV then "nil" else v.fmt

/-- The full pipeline on one source text: scan, parse, evaluate, as `run`
in `main.go` composes them (ignoring lexical errors, which the claims
handle separately). -/
def runSource (source : String) : Except ParseError (Except RuntimeError GoValue) :=
  (Parse (ScanTokens source).1).map eval



/-! ## Scanner invariants

`ScannerEvolves s s'` collects what one scanning step preserves: tokens
are only appended and never of the EOF kind, the source is untouched and
the cursor does not move backwards. -/

def ScannerEvolves (s s' : Scanner) : Prop :=
  (∃ ts, s'.tokens = s.tokens ++ ts ∧ ∀ t ∈ ts, t.typ ≠ .EOF) ∧
  s'.source = s.source ∧ s.current ≤ s'.current

/-! ## Parser unfolding equations and evaluation lemmas

One-step equations for the fuel-indexed parser functions (proved by
reflexivity) and small evaluation lemmas for the cursor primitives; these
drive the symbolic parses in the associativity proofs below. -/

theorem expression_succ (fuel : Nat) (p : PState) :
    expression (fuel+1) p = equality fuel p := by with_unfolding_all rfl

theorem equality_succ (fuel : Nat) (p : PState) :
    equality (fuel+1) p = (do
      let (e, p) ← comparison fuel p
      equalityLoop fuel e p) := by with_unfolding_all rfl

theorem equalityLoop_succ (fuel : Nat) (e : Expr) (p : PState) :
    equalityLoop (fuel+1) e p =
      (let (m, p') := p.matchT [.EQUAL_EQUAL, .BANG_EQUAL]
      if m then do
        let op := p'.previous
        let (r, p'') ← comparison fuel p'
        equalityLoop fuel (.Binary op e r) p''
      else .ok (e, p')) := by with_unfolding_all rfl

theorem comparison_succ (fuel : Nat) (p : PState) :
    comparison (fuel+1) p = (do
      let (e, p) ← term fuel p
      comparisonLoop fuel e p) := by with_unfolding_all rfl

theorem comparisonLoop_succ (fuel : Nat) (e : Expr) (p : PState) :
    comparisonLoop (fuel+1) e p =
      (let (m, p') := p.matchT [.GREATER, .GREATER_EQUAL, .LESS, .LESS_EQUAL]
      if m then do
        let op := p'.previous
        let (r, p'') ← term fuel p'
        comparisonLoop fuel (.Binary op e r) p''
      else .ok (e, p')) := by with_unfolding_all rfl

theorem term_succ (fuel : Nat) (p : PState) :
    term (fuel+1) p = (do
      let (e, p) ← factor fuel p
      termLoop fuel e p) := by with_unfolding_all rfl

theorem termLoop_succ (fuel : Nat) (e : Expr) (p : PState) :
    termLoop (fuel+1) e p =
      (let (m, p') := p.matchT [.PLUS, .MINUS, .OR]
      if m then do
        let op := p'.previous
        let (r, p'') ← factor fuel p'
        termLoop fuel (.Binary op e r) p''
      else .ok (e, p')) := by with_unfolding_all rfl

theorem factor_succ (fuel : Nat) (p : PState) :
    factor (fuel+1) p = (do
      let (e, p) ← unary fuel p
      factorLoop fuel e p) := by with_unfolding_all rfl

theorem factorLoop_succ (fuel : Nat) (e : Expr) (p : PState) :
    factorLoop (fuel+1) e p =
      (let (m, p') := p.matchT [.STAR, .SLASH, .AND]
      if m then do
        let op := p'.previous
        let (r, p'') ← unary fuel p'
        factorLoop fuel (.Binary op e r) p''
      else .ok (e, p')) := by with_unfolding_all rfl

theorem unary_succ (fuel : Nat) (p : PState) :
    unary (fuel+1) p =
      (let (m, p) := p.matchT [.MINUS, .BANG]
      if !m then primary fuel p
      else do
        let op := p.previous
        let (r, p) ← unary fuel p
        .ok (.Unary op r, p)) := by with_unfolding_all rfl

theorem primary_succ (fuel : Nat) (p : PState) :
    primary (fuel+1) p =
      (let (m, p) := p.matchT [.NUMBER, .STRING]
      if m then .ok (.Literal p.previous.Literal, p)
      else
        let (m, p) := p.matchT [.TRUE]
        if m then .ok (.Literal (.bool true), p)
        else
          let (m, p) := p.matchT [.FALSE]
          if m then .ok (.Literal (.bool false), p)
          else
            let (m, p) := p.matchT [.NIL]
            if m then .ok (.Literal (.str "null"), p)
            else
              let (m, p) := p.matchT [.LEFT_PAREN]
              if m then do
                let (e, p) ← expression fuel p
                let (_, p) ← consume p .RIGHT_PAREN "Expect ')' after expression."
                .ok (.Grouping e, p)
              else .error (perror p.peek "Expect expression")) := by with_unfolding_all rfl

theorem exbind_ok {ε α β : Type} (a : α) (f : α → Except ε β) :
    (Except.ok a : Except ε α) >>= f = f a := rfl

theorem exbind_error {ε α β : Type} (e : ε) (f : α → Except ε β) :
    (Except.error e : Except ε α) >>= f = Except.error e := rfl

theorem peek_mk (ts : List Token) (i : Nat) :
    PState.peek ⟨ts, i⟩ = ts.getD i oobToken := rfl

theorem previous_mk (ts : List Token) (i : Nat) :
    PState.previous ⟨ts, i⟩ = ts.getD (i - 1) oobToken := rfl

theorem check_hit (ts : List Token) (i : Nat) (t : TokenType)
    (h : (ts.getD i oobToken).typ = t) (hne : t ≠ .EOF) :
    PState.checkTokenType ⟨ts, i⟩ t = true := by
  simp only [PState.checkTokenType, PState.isAtEnd, peek_mk, h]
  simp [hne]

theorem check_miss (ts : List Token) (i : Nat) (t : TokenType)
    (h : (ts.getD i oobToken).typ ≠ t) :
    PState.checkTokenType ⟨ts, i⟩ t = false := by
  simp only [PState.checkTokenType, PState.isAtEnd, peek_mk]
  split
  · rfl
  · exact decide_eq_false h

theorem advance_mk (ts : List Token) (i : Nat)
    (h : (ts.getD i oobToken).typ ≠ .EOF) :
    PState.advance ⟨ts, i⟩ = (ts.getD i oobToken, ⟨ts, i + 1⟩) := by
  have hd : decide ((ts.getD i oobToken).typ = TokenType.EOF) = false := decide_eq_false h
  simp only [PState.advance, PState.isAtEnd, peek_mk, hd, Bool.not_false, if_true,
    previous_mk, Nat.add_sub_cancel]

theorem matchT_nil (p : PState) : p.matchT [] = (false, p) := rfl

theorem matchT_hit (ts : List Token) (i : Nat) (t : TokenType) (rest : List TokenType)
    (h : (ts.getD i oobToken).typ = t) (hne : t ≠ .EOF) :
    PState.matchT ⟨ts, i⟩ (t :: rest) = (true, ⟨ts, i + 1⟩) := by
  simp only [PState.matchT, check_hit ts i t h hne, if_true, advance_mk ts i (h ▸ hne)]

theorem matchT_miss (ts : List Token) (i : Nat) (t : TokenType) (rest : List TokenType)
    (h : (ts.getD i oobToken).typ ≠ t) :
    PState.matchT ⟨ts, i⟩ (t :: rest) = PState.matchT ⟨ts, i⟩ rest := by
  simp only [PState.matchT, check_miss ts i t h, if_false, Bool.false_eq_true, ite_false]

theorem equalityLoop_miss (fuel : Nat) (e : Expr) (ts : List Token) (i : Nat)
    (h1 : (ts.getD i oobToken).typ ≠ .EQUAL_EQUAL)
    (h2 : (ts.getD i oobToken).typ ≠ .BANG_EQUAL) :
    equalityLoop (fuel+1) e ⟨ts, i⟩ = .ok (e, ⟨ts, i⟩) := by
  rw [equalityLoop_succ, matchT_miss _ _ _ _ h1, matchT_miss _ _ _ _ h2, matchT_nil]
  rfl

theorem equalityLoop_hit (fuel : Nat) (e : Expr) (ts : List Token) (i : Nat)
    (h : (ts.getD i oobToken).typ = .EQUAL_EQUAL ∨ (ts.getD i oobToken).typ = .BANG_EQUAL) :
    equalityLoop (fuel+1) e ⟨ts, i⟩ = (do
      let (r, p) ← comparison fuel ⟨ts, i + 1⟩
      equalityLoop fuel (.Binary (ts.getD i oobToken) e r) p) := by
  rw [equalityLoop_succ]
  rcases h with h | h
  · rw [matchT_hit _ _ _ _ h (by decide)]
    rfl
  · rw [matchT_miss _ _ _ _ (by rw [h]; decide), matchT_hit _ _ _ _ h (by decide)]
    rfl

theorem comparisonLoop_miss (fuel : Nat) (e : Expr) (ts : List Token) (i : Nat)
    (h1 : (ts.getD i oobToken).typ ≠ .GREATER)
    (h2 : (ts.getD i oobToken).typ ≠ .GREATER_EQUAL)
    (h3 : (ts.getD i oobToken).typ ≠ .LESS)
    (h4 : (ts.getD i oobToken).typ ≠ .LESS_EQUAL) :
    comparisonLoop (fuel+1) e ⟨ts, i⟩ = .ok (e, ⟨ts, i⟩) := by
  rw [comparisonLoop_succ, matchT_miss _ _ _ _ h1, matchT_miss _ _ _ _ h2,
    matchT_miss _ _ _ _ h3, matchT_miss _ _ _ _ h4, matchT_nil]
  rfl

theorem comparisonLoop_hit (fuel : Nat) (e : Expr) (ts : List Token) (i : Nat)
    (h : (ts.getD i oobToken).typ = .GREATER ∨ (ts.getD i oobToken).typ = .GREATER_EQUAL ∨
      (ts.getD i oobToken).typ = .LESS ∨ (ts.getD i oobToken).typ = .LESS_EQUAL) :
    comparisonLoop (fuel+1) e ⟨ts, i⟩ = (do
      let (r, p) ← term fuel ⟨ts, i + 1⟩
      comparisonLoop fuel (.Binary (ts.getD i oobToken) e r) p) := by
  rw [comparisonLoop_succ]
  rcases h with h | h | h | h
  · rw [matchT_hit _ _ _ _ h (by decide)]
    rfl
  · rw [matchT_miss _ _ _ _ (by rw [h]; decide), matchT_hit _ _ _ _ h (by decide)]
    rfl
  · rw [matchT_miss _ _ _ _ (by rw [h]; decide), matchT_miss _ _ _ _ (by rw [h]; decide),
      matchT_hit _ _ _ _ h (by decide)]
    rfl
  · rw [matchT_miss _ _ _ _ (by rw [h]; decide), matchT_miss _ _ _ _ (by rw [h]; decide),
      matchT_miss _ _ _ _ (by rw [h]; decide), matchT_hit _ _ _ _ h (by decide)]
    rfl

theorem termLoop_miss (fuel : Nat) (e : Expr) (ts : List Token) (i : Nat)
    (h1 : (ts.getD i oobToken).typ ≠ .PLUS)
    (h2 : (ts.getD i oobToken).typ ≠ .MINUS)
    (h3 : (ts.getD i oobToken).typ ≠ .OR) :
    termLoop (fuel+1) e ⟨ts, i⟩ = .ok (e, ⟨ts, i⟩) := by
  rw [termLoop_succ, matchT_miss _ _ _ _ h1, matchT_miss _ _ _ _ h2,
    matchT_miss _ _ _ _ h3, matchT_nil]
  rfl

theorem termLoop_hit (fuel : Nat) (e : Expr) (ts : List Token) (i : Nat)
    (h : (ts.getD i oobToken).typ = .PLUS ∨ (ts.getD i oobToken).typ = .MINUS ∨
      (ts.getD i oobToken).typ = .OR) :
    termLoop (fuel+1) e ⟨ts, i⟩ = (do
      let (r, p) ← factor fuel ⟨ts, i + 1⟩
      termLoop fuel (.Binary (ts.getD i oobToken) e r) p) := by
  rw [termLoop_succ]
  rcases h with h | h | h
  · rw [matchT_hit _ _ _ _ h (by decide)]
    rfl
  · rw [matchT_miss _ _ _ _ (by rw [h]; decide), matchT_hit _ _ _ _ h (by decide)]
    rfl
  · rw [matchT_miss _ _ _ _ (by rw [h]; decide), matchT_miss _ _ _ _ (by rw [h]; decide),
      matchT_hit _ _ _ _ h (by decide)]
    rfl

theorem factorLoop_miss (fuel : Nat) (e : Expr) (ts : List Token) (i : Nat)
    (h1 : (ts.getD i oobToken).typ ≠ .STAR)
    (h2 : (ts.getD i oobToken).typ ≠ .SLASH)
    (h3 : (ts.getD i oobToken).typ ≠ .AND) :
    factorLoop (fuel+1) e ⟨ts, i⟩ = .ok (e, ⟨ts, i⟩) := by
  rw [factorLoop_succ, matchT_miss _ _ _ _ h1, matchT_miss _ _ _ _ h2,
    matchT_miss _ _ _ _ h3, matchT_nil]
  rfl

theorem factorLoop_hit (fuel : Nat) (e : Expr) (ts : List Token) (i : Nat)
    (h : (ts.getD i oobToken).typ = .STAR ∨ (ts.getD i oobToken).typ = .SLASH ∨
      (ts.getD i oobToken).typ = .AND) :
    factorLoop (fuel+1) e ⟨ts, i⟩ = (do
      let (r, p) ← unary fuel ⟨ts, i + 1⟩
      factorLoop fuel (.Binary (ts.getD i oobToken) e r) p) := by
  rw [factorLoop_succ]
  rcases h with h | h | h
  · rw [matchT_hit _ _ _ _ h (by decide)]
    rfl
  · rw [matchT_miss _ _ _ _ (by rw [h]; decide), matchT_hit _ _ _ _ h (by decide)]
    rfl
  · rw [matchT_miss _ _ _ _ (by rw [h]; decide), matchT_miss _ _ _ _ (by rw [h]; decide),
      matchT_hit _ _ _ _ h (by decide)]
    rfl

theorem primary_num (fuel : Nat) (ts : List Token) (i : Nat)
    (h : (ts.getD i oobToken).typ = .NUMBER) :
    primary (fuel+1) ⟨ts, i⟩ = .ok (.Literal (ts.getD i oobToken).Literal, ⟨ts, i + 1⟩) := by
  rw [primary_succ, matchT_hit _ _ _ _ h (by decide)]
  rfl

theorem unary_num (fuel : Nat) (ts : List Token) (i : Nat)
    (h : (ts.getD i oobToken).typ = .NUMBER) :
    unary (fuel+1) ⟨ts, i⟩ = primary fuel ⟨ts, i⟩ := by
  rw [unary_succ, matchT_miss _ _ _ _ (by rw [h]; decide),
    matchT_miss _ _ _ _ (by rw [h]; decide), matchT_nil]
  rfl

theorem factor_num (fuel : Nat) (ts : List Token) (i : Nat)
    (h : (ts.getD i oobToken).typ = .NUMBER)
    (h1 : (ts.getD (i+1) oobToken).typ ≠ .STAR)
    (h2 : (ts.getD (i+1) oobToken).typ ≠ .SLASH)
    (h3 : (ts.getD (i+1) oobToken).typ ≠ .AND) :
    factor (fuel+1+1+1) ⟨ts, i⟩ = .ok (.Literal (ts.getD i oobToken).Literal, ⟨ts, i + 1⟩) := by
  rw [factor_succ, unary_num _ _ _ h, primary_num _ _ _ h]
  simp only [exbind_ok]
  rw [factorLoop_miss _ _ _ _ h1 h2 h3]

theorem term_num (fuel : Nat) (ts : List Token) (i : Nat)
    (h : (ts.getD i oobToken).typ = .NUMBER)
    (h1 : (ts.getD (i+1) oobToken).typ ≠ .STAR)
    (h2 : (ts.getD (i+1) oobToken).typ ≠ .SLASH)
    (h3 : (ts.getD (i+1) oobToken).typ ≠ .AND)
    (h4 : (ts.getD (i+1) oobToken).typ ≠ .PLUS)
    (h5 : (ts.getD (i+1) oobToken).typ ≠ .MINUS)
    (h6 : (ts.getD (i+1) oobToken).typ ≠ .OR) :
    term (fuel+1+1+1+1) ⟨ts, i⟩ = .ok (.Literal (ts.getD i oobToken).Literal, ⟨ts, i + 1⟩) := by
  rw [term_succ, factor_num _ _ _ h h1 h2 h3]
  simp only [exbind_ok]
  rw [termLoop_miss _ _ _ _ h4 h5 h6]

theorem comparison_num (fuel : Nat) (ts : List Token) (i : Nat)
    (h : (ts.getD i oobToken).typ = .NUMBER)
    (h1 : (ts.getD (i+1) oobToken).typ ≠ .STAR)
    (h2 : (ts.getD (i+1) oobToken).typ ≠ .SLASH)
    (h3 : (ts.getD (i+1) oobToken).typ ≠ .AND)
    (h4 : (ts.getD (i+1) oobToken).typ ≠ .PLUS)
    (h5 : (ts.getD (i+1) oobToken).typ ≠ .MINUS)
    (h6 : (ts.getD (i+1) oobToken).typ ≠ .OR)
    (h7 : (ts.getD (i+1) oobToken).typ ≠ .GREATER)
    (h8 : (ts.getD (i+1) oobToken).typ ≠ .GREATER_EQUAL)
    (h9 : (ts.getD (i+1) oobToken).typ ≠ .LESS)
    (h10 : (ts.getD (i+1) oobToken).typ ≠ .LESS_EQUAL) :
    comparison (fuel+1+1+1+1+1) ⟨ts, i⟩ =
      .ok (.Literal (ts.getD i oobToken).Literal, ⟨ts, i + 1⟩) := by
  rw [comparison_succ, term_num _ _ _ h h1 h2 h3 h4 h5 h6]
  simp only [exbind_ok]
  rw [comparisonLoop_miss _ _ _ _ h7 h8 h9 h10]

theorem termOp_notFactor (ty : TokenType) (h : ty = .PLUS ∨ ty = .MINUS ∨ ty = .OR) :
    ty ≠ .STAR ∧ ty ≠ .SLASH ∧ ty ≠ .AND := by
  rcases h with h | h | h <;> subst h <;> decide

theorem compOp_notBelow (ty : TokenType)
    (h : ty = .GREATER ∨ ty = .GREATER_EQUAL ∨ ty = .LESS ∨ ty = .LESS_EQUAL) :
    ty ≠ .STAR ∧ ty ≠ .SLASH ∧ ty ≠ .AND ∧ ty ≠ .PLUS ∧ ty ≠ .MINUS ∧ ty ≠ .OR := by
  rcases h with h | h | h | h <;> subst h <;> decide

theorem eqOp_notBelow (ty : TokenType)
    (h : ty = .EQUAL_EQUAL ∨ ty = .BANG_EQUAL) :
    ty ≠ .STAR ∧ ty ≠ .SLASH ∧ ty ≠ .AND ∧ ty ≠ .PLUS ∧ ty ≠ .MINUS ∧ ty ≠ .OR ∧
      ty ≠ .GREATER ∧ ty ≠ .GREATER_EQUAL ∧ ty ≠ .LESS ∧ ty ≠ .LESS_EQUAL := by
  rcases h with h | h <;> subst h <;> decide

theorem eof_notOp (ty : TokenType) (h : ty = .EOF) :
    ty ≠ .STAR ∧ ty ≠ .SLASH ∧ ty ≠ .AND ∧ ty ≠ .PLUS ∧ ty ≠ .MINUS ∧ ty ≠ .OR ∧
      ty ≠ .GREATER ∧ ty ≠ .GREATER_EQUAL ∧ ty ≠ .LESS ∧ ty ≠ .LESS_EQUAL ∧
      ty ≠ .EQUAL_EQUAL ∧ ty ≠ .BANG_EQUAL := by
  subst h; decide

/-- Left-associativity of the `term` level (`+`, `-`, `or`): a chain
`a OP b OP c` of NUMBER operands folds into `Binary(OP₂, Binary(OP₁,a,b), c)`. -/
theorem termLevelAssoc (a t1 b t2 c e : Token)
    (ha : a.typ = .NUMBER) (hb : b.typ = .NUMBER) (hc : c.typ = .NUMBER)
    (he : e.typ = .EOF)
    (h1 : t1.typ = .PLUS ∨ t1.typ = .MINUS ∨ t1.typ = .OR)
    (h2 : t2.typ = .PLUS ∨ t2.typ = .MINUS ∨ t2.typ = .OR) :
    Parse [a, t1, b, t2, c, e] =
      .ok (.Binary t2 (.Binary t1 (.Literal a.Literal) (.Literal b.Literal))
        (.Literal c.Literal)) := by
  obtain ⟨n1s, n1sl, n1a⟩ := termOp_notFactor _ h1
  obtain ⟨n2s, n2sl, n2a⟩ := termOp_notFactor _ h2
  obtain ⟨es, esl, ea, ep, em, eo, eg, ege, el, ele, eee, ebe⟩ := eof_notOp _ he
  simp only [Parse, List.length_cons, List.length_nil]
  rw [show (16 * (5 + 1 + 1) : Nat) = 102+1+1+1+1+1+1+1+1+1+1 from by norm_num]
  rw [expression_succ, equality_succ, comparison_succ, term_succ]
  rw [factor_num _ [a, t1, b, t2, c, e] 0 ha n1s n1sl n1a]
  simp only [exbind_ok]
  rw [termLoop_hit _ _ [a, t1, b, t2, c, e] 1 h1]
  rw [factor_num _ [a, t1, b, t2, c, e] 2 hb n2s n2sl n2a]
  simp only [exbind_ok]
  rw [termLoop_hit _ _ [a, t1, b, t2, c, e] 3 h2]
  rw [factor_num _ [a, t1, b, t2, c, e] 4 hc es esl ea]
  simp only [exbind_ok]
  rw [termLoop_miss _ _ [a, t1, b, t2, c, e] 5 ep em eo]
  simp only [exbind_ok]
  rw [comparisonLoop_miss _ _ [a, t1, b, t2, c, e] 5 eg ege el ele]
  simp only [exbind_ok]
  rw [equalityLoop_miss _ _ [a, t1, b, t2, c, e] 5 eee ebe]
  simp only [exbind_ok]
  rfl

/-- Left-associativity of the `factor` level (`*`, `/`, `and`). -/
theorem factorLevelAssoc (a t1 b t2 c e : Token)
    (ha : a.typ = .NUMBER) (hb : b.typ = .NUMBER) (hc : c.typ = .NUMBER)
    (he : e.typ = .EOF)
    (h1 : t1.typ = .STAR ∨ t1.typ = .SLASH ∨ t1.typ = .AND)
    (h2 : t2.typ = .STAR ∨ t2.typ = .SLASH ∨ t2.typ = .AND) :
    Parse [a, t1, b, t2, c, e] =
      .ok (.Binary t2 (.Binary t1 (.Literal a.Literal) (.Literal b.Literal))
        (.Literal c.Literal)) := by
  obtain ⟨es, esl, ea, ep, em, eo, eg, ege, el, ele, eee, ebe⟩ := eof_notOp _ he
  simp only [Parse, List.length_cons, List.length_nil]
  rw [show (16 * (5 + 1 + 1) : Nat) = 102+1+1+1+1+1+1+1+1+1+1 from by norm_num]
  rw [expression_succ, equality_succ, comparison_succ, term_succ, factor_succ]
  rw [unary_num _ [a, t1, b, t2, c, e] 0 ha, primary_num _ [a, t1, b, t2, c, e] 0 ha]
  simp only [exbind_ok]
  rw [factorLoop_hit _ _ [a, t1, b, t2, c, e] 1 h1]
  rw [unary_num _ [a, t1, b, t2, c, e] 2 hb, primary_num _ [a, t1, b, t2, c, e] 2 hb]
  simp only [exbind_ok]
  rw [factorLoop_hit _ _ [a, t1, b, t2, c, e] 3 h2]
  rw [unary_num _ [a, t1, b, t2, c, e] 4 hc, primary_num _ [a, t1, b, t2, c, e] 4 hc]
  simp only [exbind_ok]
  rw [factorLoop_miss _ _ [a, t1, b, t2, c, e] 5 es esl ea]
  simp only [exbind_ok]
  rw [termLoop_miss _ _ [a, t1, b, t2, c, e] 5 ep em eo]
  simp only [exbind_ok]
  rw [comparisonLoop_miss _ _ [a, t1, b, t2, c, e] 5 eg ege el ele]
  simp only [exbind_ok]
  rw [equalityLoop_miss _ _ [a, t1, b, t2, c, e] 5 eee ebe]
  simp only [exbind_ok]
  rfl

/-- Left-associativity of the `comparison` level (`>`, `>=`, `<`, `<=`). -/
theorem comparisonLevelAssoc (a t1 b t2 c e : Token)
    (ha : a.typ = .NUMBER) (hb : b.typ = .NUMBER) (hc : c.typ = .NUMBER)
    (he : e.typ = .EOF)
    (h1 : t1.typ = .GREATER ∨ t1.typ = .GREATER_EQUAL ∨ t1.typ = .LESS ∨
      t1.typ = .LESS_EQUAL)
    (h2 : t2.typ = .GREATER ∨ t2.typ = .GREATER_EQUAL ∨ t2.typ = .LESS ∨
      t2.typ = .LESS_EQUAL) :
    Parse [a, t1, b, t2, c, e] =
      .ok (.Binary t2 (.Binary t1 (.Literal a.Literal) (.Literal b.Literal))
        (.Literal c.Literal)) := by
  obtain ⟨n1s, n1sl, n1a, n1p, n1m, n1o⟩ := compOp_notBelow _ h1
  obtain ⟨n2s, n2sl, n2a, n2p, n2m, n2o⟩ := compOp_notBelow _ h2
  obtain ⟨es, esl, ea, ep, em, eo, eg, ege, el, ele, eee, ebe⟩ := eof_notOp _ he
  simp only [Parse, List.length_cons, List.length_nil]
  rw [show (16 * (5 + 1 + 1) : Nat) = 102+1+1+1+1+1+1+1+1+1+1 from by norm_num]
  rw [expression_succ, equality_succ, comparison_succ]
  rw [term_num _ [a, t1, b, t2, c, e] 0 ha n1s n1sl n1a n1p n1m n1o]
  simp only [exbind_ok]
  rw [comparisonLoop_hit _ _ [a, t1, b, t2, c, e] 1 h1]
  rw [term_num _ [a, t1, b, t2, c, e] 2 hb n2s n2sl n2a n2p n2m n2o]
  simp only [exbind_ok]
  rw [comparisonLoop_hit _ _ [a, t1, b, t2, c, e] 3 h2]
  rw [term_num _ [a, t1, b, t2, c, e] 4 hc es esl ea ep em eo]
  simp only [exbind_ok]
  rw [comparisonLoop_miss _ _ [a, t1, b, t2, c, e] 5 eg ege el ele]
  simp only [exbind_ok]
  rw [equalityLoop_miss _ _ [a, t1, b, t2, c, e] 5 eee ebe]
  simp only [exbind_ok]
  rfl

/-- Left-associativity of the `equality` level (`==`, `!=`). -/
theorem equalityLevelAssoc (a t1 b t2 c e : Token)
    (ha : a.typ = .NUMBER) (hb : b.typ = .NUMBER) (hc : c.typ = .NUMBER)
    (he : e.typ = .EOF)
    (h1 : t1.typ = .EQUAL_EQUAL ∨ t1.typ = .BANG_EQUAL)
    (h2 : t2.typ = .EQUAL_EQUAL ∨ t2.typ = .BANG_EQUAL) :
    Parse [a, t1, b, t2, c, e] =
      .ok (.Binary t2 (.Binary t1 (.Literal a.Literal) (.Literal b.Literal))
        (.Literal c.Literal)) := by
  obtain ⟨n1s, n1sl, n1a, n1p, n1m, n1o, n1g, n1ge, n1l, n1le⟩ := eqOp_notBelow _ h1
  obtain ⟨n2s, n2sl, n2a, n2p, n2m, n2o, n2g, n2ge, n2l, n2le⟩ := eqOp_notBelow _ h2
  obtain ⟨es, esl, ea, ep, em, eo, eg, ege, el, ele, eee, ebe⟩ := eof_notOp _ he
  simp only [Parse, List.length_cons, List.length_nil]
  rw [show (16 * (5 + 1 + 1) : Nat) = 102+1+1+1+1+1+1+1+1+1+1 from by norm_num]
  rw [expression_succ, equality_succ]
  rw [comparison_num _ [a, t1, b, t2, c, e] 0 ha n1s n1sl n1a n1p n1m n1o n1g n1ge n1l n1le]
  simp only [exbind_ok]
  rw [equalityLoop_hit _ _ [a, t1, b, t2, c, e] 1 h1]
  rw [comparison_num _ [a, t1, b, t2, c, e] 2 hb n2s n2sl n2a n2p n2m n2o n2g n2ge n2l n2le]
  simp only [exbind_ok]
  rw [equalityLoop_hit _ _ [a, t1, b, t2, c, e] 3 h2]
  rw [comparison_num _ [a, t1, b, t2, c, e] 4 hc es esl ea ep em eo eg ege el ele]
  simp only [exbind_ok]
  rw [equalityLoop_miss _ _ [a, t1, b, t2, c, e] 5 eee ebe]
  simp only [exbind_ok]
  rfl

theorem ScannerEvolves.refl (s : Scanner) : ScannerEvolves s s :=
  ⟨⟨[], by simp, by simp⟩, rfl, Nat.le_refl _⟩

theorem ScannerEvolves.trans {s1 s2 s3 : Scanner}
    (h12 : ScannerEvolves s1 s2) (h23 : ScannerEvolves s2 s3) :
    ScannerEvolves s1 s3 := by
  obtain ⟨⟨ts1, he1, hn1⟩, hs1, hc1⟩ := h12
  obtain ⟨⟨ts2, he2, hn2⟩, hs2, hc2⟩ := h23
  refine ⟨⟨ts1 ++ ts2, by rw [he2, he1, List.append_assoc], ?_⟩,
    hs2.trans hs1, hc1.trans hc2⟩
  intro t ht
  rcases List.mem_append.mp ht with h | h
  · exact hn1 t h
  · exact hn2 t h

theorem evolves_addTokenLiteral (s : Scanner) (typ : TokenType) (lit : GoValue)
    (h : typ ≠ .EOF) : ScannerEvolves s (s.addTokenLiteral typ lit) := by
  refine ⟨⟨[⟨typ, s.lexeme, lit, s.line⟩], rfl, ?_⟩, rfl, Nat.le_refl _⟩
  intro t ht
  rw [List.mem_singleton] at ht
  subst ht
  exact h

theorem evolves_error (s : Scanner) (msg : String) : ScannerEvolves s (s.error msg) :=
  ⟨⟨[], by simp [Scanner.error], by simp⟩, rfl, Nat.le_refl _⟩

theorem evolves_advance (s : Scanner) : ScannerEvolves s (s.advance).2 :=
  ⟨⟨[], by simp [Scanner.advance], by simp⟩, rfl, Nat.le_succ _⟩

theorem evolves_matchChar (s : Scanner) (c : Char) :
    ScannerEvolves s (s.matchChar c).2 := by
  unfold Scanner.matchChar
  split
  · exact ScannerEvolves.refl s
  · split
    · exact ScannerEvolves.refl s
    · exact evolves_advance s

theorem evolves_identifierLoop (fuel : Nat) :
    ∀ s : Scanner, ScannerEvolves s (Scanner.identifierLoop fuel s) := by
  induction fuel with
  | zero => intro s; exact ScannerEvolves.refl s
  | succ n ih =>
      intro s
      simp only [Scanner.identifierLoop]
      split
      · exact (evolves_advance s).trans (ih (s.advance).2)
      · exact ScannerEvolves.refl s

theorem evolves_digitsLoop (fuel : Nat) :
    ∀ s : Scanner, ScannerEvolves s (Scanner.digitsLoop fuel s) := by
  induction fuel with
  | zero => intro s; exact ScannerEvolves.refl s
  | succ n ih =>
      intro s
      simp only [Scanner.digitsLoop]
      split
      · exact (evolves_advance s).trans (ih (s.advance).2)
      · exact ScannerEvolves.refl s

theorem evolves_commentLoop (fuel : Nat) :
    ∀ s : Scanner, ScannerEvolves s (Scanner.commentLoop fuel s) := by
  induction fuel with
  | zero => intro s; exact ScannerEvolves.refl s
  | succ n ih =>
      intro s
      simp only [Scanner.commentLoop]
      split
      · exact (evolves_advance s).trans (ih (s.advance).2)
      · exact ScannerEvolves.refl s

theorem evolves_lineBump (s : Scanner) : ScannerEvolves s { s with line := s.line + 1 } :=
  ⟨⟨[], by simp, by simp⟩, rfl, Nat.le_refl _⟩

theorem evolves_stringLoop (fuel : Nat) :
    ∀ s : Scanner, ScannerEvolves s (Scanner.stringLoop fuel s) := by
  induction fuel with
  | zero => intro s; exact ScannerEvolves.refl s
  | succ n ih =>
      intro s
      simp only [Scanner.stringLoop]
      split
      · refine ScannerEvolves.trans ?_ (ih _)
        split
        · exact (evolves_lineBump s).trans (evolves_advance _)
        · exact evolves_advance s
      · exact ScannerEvolves.refl s

theorem keywords_ne_EOF (lex : String) (ty : TokenType) (h : keywords lex = some ty) :
    ty ≠ .EOF := by
  unfold keywords at h
  split at h <;> first
    | (injection h with h; subst h; decide)
    | exact absurd h (by simp)

theorem evolves_identifier (s : Scanner) : ScannerEvolves s s.identifier := by
  have hcore : ∀ s1 : Scanner, ScannerEvolves s1
      (match keywords s1.lexeme with
        | some typ => s1.addToken typ
        | none => s1.addToken .IDENTIFIER) := by
    intro s1
    split
    · next typ hty => exact evolves_addTokenLiteral _ _ _ (keywords_ne_EOF _ _ hty)
    · exact evolves_addTokenLiteral _ _ _ (by decide)
  exact (evolves_identifierLoop (s.source.length + 1) s).trans (hcore _)

theorem evolves_stringFn (s : Scanner) : ScannerEvolves s s.stringFn := by
  have hcore : ∀ s1 : Scanner, ScannerEvolves s1
      (if s1.isAtEnd then s1.error "Unterminated string."
       else (s1.advance).2.addTokenLiteral .STRING
         (.str (String.mk (((s1.advance).2.source.drop ((s1.advance).2.start + 1)).take
           (((s1.advance).2.current - 1) - ((s1.advance).2.start + 1)))))) := by
    intro s1
    split
    · exact evolves_error _ _
    · exact (evolves_advance _).trans (evolves_addTokenLiteral _ _ _ (by decide))
  exact (evolves_stringLoop (s.source.length + 1) s).trans (hcore _)

theorem evolves_number (s : Scanner) : ScannerEvolves s s.number := by
  have h2 : ∀ s1 : Scanner, ScannerEvolves s1
      (if s1.peek = '.' && isDigit s1.peekNext then
        Scanner.digitsLoop (s1.source.length + 1) (s1.advance).2
      else s1) := by
    intro s1
    split
    · exact (evolves_advance _).trans (evolves_digitsLoop _ _)
    · exact ScannerEvolves.refl _
  have h3 : ∀ s2 : Scanner, ScannerEvolves s2
      (s2.addTokenLiteral .NUMBER (.num (.finite (Scanner.parseNumber
        ((s2.source.drop s2.start).take (s2.current - s2.start)))))) :=
    fun s2 => evolves_addTokenLiteral _ _ _ (by decide)
  exact ((evolves_digitsLoop (s.source.length + 1) s).trans ((h2 _).trans (h3 _)))

theorem scanTokenBody_evolves (c : Char) (s : Scanner) :
    ScannerEvolves s
      (match c with
        | '(' => s.addToken .LEFT_PAREN
        | ')' => s.addToken .RIGHT_PAREN
        | '{' => s.addToken .LEFT_BRACE
        | '}' => s.addToken .RIGHT_BRACE
        | ',' => s.addToken .COMMA
        | '.' => s.addToken .DOT
        | '-' => s.addToken .MINUS
        | '+' => s.addToken .PLUS
        | ';' => s.addToken .SEMICOLON
        | '*' => s.addToken .STAR
        | '!' =>
            let (m, s) := s.matchChar '='
            if m then s.addToken .BANG_EQUAL else s.addToken .BANG
        | '=' =>
            let (m, s) := s.matchChar '='
            if m then s.addToken .EQUAL_EQUAL else s.addToken .EQUAL
        | '<' =>
            let (m, s) := s.matchChar '='
            if m then s.addToken .LESS_EQUAL else s.addToken .LESS
        | '>' =>
            let (m, s) := s.matchChar '='
            if m then s.addToken .GREATER_EQUAL else s.addToken .GREATER
        | '/' =>
            let (m, s) := s.matchChar '/'
            if m then Scanner.commentLoop (s.source.length + 1) s else s.addToken .SLASH
        | ' ' => s
        | '\t' => s
        | '\r' => s
        | '\n' => { s with line := s.line + 1 }
        | '"' => s.stringFn
        | c =>
            if isDigit c then s.number
            else if isAlpha c then s.identifier
            else s.error "Unexpected character.") := by
  have hpair : ∀ (exp : Char) (t1 t2 : TokenType), t1 ≠ .EOF → t2 ≠ .EOF →
      ScannerEvolves s
        (let (m, s') := s.matchChar exp
        if m then s'.addToken t1 else s'.addToken t2) := by
    intro exp t1 t2 h1 h2
    rcases hmc : s.matchChar exp with ⟨m, s2⟩
    have hev : ScannerEvolves s s2 := by
      have h := evolves_matchChar s exp
      rw [hmc] at h
      exact h
    cases m
    · exact hev.trans (evolves_addTokenLiteral _ _ _ h2)
    · exact hev.trans (evolves_addTokenLiteral _ _ _ h1)
  split
  · exact evolves_addTokenLiteral _ _ _ (by decide)
  · exact evolves_addTokenLiteral _ _ _ (by decide)
  · exact evolves_addTokenLiteral _ _ _ (by decide)
  · exact evolves_addTokenLiteral _ _ _ (by decide)
  · exact evolves_addTokenLiteral _ _ _ (by decide)
  · exact evolves_addTokenLiteral _ _ _ (by decide)
  · exact evolves_addTokenLiteral _ _ _ (by decide)
  · exact evolves_addTokenLiteral _ _ _ (by decide)
  · exact evolves_addTokenLiteral _ _ _ (by decide)
  · exact evolves_addTokenLiteral _ _ _ (by decide)
  · exact hpair '=' .BANG_EQUAL .BANG (by decide) (by decide)
  · exact hpair '=' .EQUAL_EQUAL .EQUAL (by decide) (by decide)
  · exact hpair '=' .LESS_EQUAL .LESS (by decide) (by decide)
  · exact hpair '=' .GREATER_EQUAL .GREATER (by decide) (by decide)
  · rcases hmc : s.matchChar '/' with ⟨m, s2⟩
    have hev : ScannerEvolves s s2 := by
      have h := evolves_matchChar s '/'
      rw [hmc] at h
      exact h
    cases m
    · exact hev.trans (evolves_addTokenLiteral _ _ _ (by decide))
    · exact hev.trans (evolves_commentLoop _ _)
  · exact ScannerEvolves.refl s
  · exact ScannerEvolves.refl s
  · exact ScannerEvolves.refl s
  · exact evolves_lineBump s
  · exact evolves_stringFn s
  · split
    · exact evolves_number s
    · split
      · exact evolves_identifier s
      · exact evolves_error s _

theorem scanToken_step (s : Scanner) :
    ScannerEvolves s (Scanner.scanToken s) ∧ s.current < (Scanner.scanToken s).current := by
  have hb := scanTokenBody_evolves (s.advance).1 (s.advance).2
  have hfull : ScannerEvolves s (Scanner.scanToken s) := (evolves_advance s).trans hb
  refine ⟨hfull, ?_⟩
  have hc : (s.advance).2.current ≤ (Scanner.scanToken s).current := hb.2.2
  exact Nat.lt_of_lt_of_le (Nat.lt_succ_self _) hc

theorem evolves_startReset (s : Scanner) : ScannerEvolves s { s with start := s.current } :=
  ⟨⟨[], by simp, by simp⟩, rfl, Nat.le_refl _⟩

theorem scanTokensLoop_evolves (fuel : Nat) :
    ∀ s : Scanner, ScannerEvolves s (Scanner.scanTokensLoop fuel s) := by
  induction fuel with
  | zero => intro s; exact ScannerEvolves.refl s
  | succ n ih =>
      intro s
      simp only [Scanner.scanTokensLoop]
      split
      · exact ScannerEvolves.refl s
      · exact ((evolves_startReset s).trans (scanToken_step _).1).trans (ih _)

theorem scanTokensLoop_exit (fuel : Nat) :
    ∀ s : Scanner, s.source.length - s.current < fuel →
      (Scanner.scanTokensLoop fuel s).source.length ≤ (Scanner.scanTokensLoop fuel s).current := by
  induction fuel with
  | zero => intro s h; omega
  | succ n ih =>
      intro s h
      simp only [Scanner.scanTokensLoop]
      split
      · next hend => simpa [Scanner.isAtEnd] using hend
      · next hend =>
          apply ih
          have hstep := scanToken_step { s with start := s.current }
          have hsrc : (Scanner.scanToken { s with start := s.current }).source = s.source :=
            hstep.1.2.1
          have hcur : s.current < (Scanner.scanToken { s with start := s.current }).current :=
            hstep.2
          have hlt : s.current < s.source.length := by
            by_contra hge
            exact hend (by simpa [Scanner.isAtEnd] using Nat.le_of_not_lt hge)
          rw [hsrc]
          omega

/-! ## Claims -/

/-- C5: for every input string, `ScanTokens` returns a token sequence whose
last element is an EOF token, EOF occurring exactly once; lexical errors
are appended to the error list and scanning continues with the remaining
characters (shown on the concrete input `"@1"`: the unexpected `@` is
reported and the following `1` is still scanned as a NUMBER token). -/
theorem C5_scan_always_eof_terminated :
    (∀ source : String, ∃ n,
      (ScanTokens source).1.getLast? =
        some { typ := .EOF, Lexeme := "", Literal := .nilV, Line := n } ∧
      (ScanTokens source).1.countP (fun t => t.typ == .EOF) = 1) ∧
    ScanTokens "@1" =
      ([{ typ := .NUMBER, Lexeme := "1", Literal := .num (.finite 1), Line := 0 },
        { typ := .EOF, Lexeme := "", Literal := .nilV, Line := 0 }],
       ["Line: 0, Unexpected character."]) := by
  constructor
  · intro source
    obtain ⟨⟨ts, hts, hn⟩, _, _⟩ :=
      scanTokensLoop_evolves (source.toList.length + 1) { source := source.toList }
    refine ⟨(Scanner.scanTokensLoop (source.toList.length + 1)
      { source := source.toList }).line, ?_, ?_⟩
    · exact List.getLast?_concat _
    · have h0 : ∀ t ∈ (Scanner.scanTokensLoop (source.toList.length + 1)
          { source := source.toList }).tokens, ¬((t.typ == TokenType.EOF) = true) := by
        intro t ht
        rw [hts] at ht
        simp only [List.nil_append] at ht
        simpa using hn t ht
      have heq : (ScanTokens source).1 =
          (Scanner.scanTokensLoop (source.toList.length + 1)
            { source := source.toList }).tokens ++
          [{ typ := .EOF, Lexeme := "", Literal := .nilV,
             Line := (Scanner.scanTokensLoop (source.toList.length + 1)
               { source := source.toList }).line }] := rfl
      rw [heq, List.countP_append, List.countP_eq_zero.mpr h0]
      simp [List.countP_cons]
  · with_unfolding_all decide

/-- C10: `ScanTokens` terminates on every finite input: each `scanToken`
call made while the cursor is inside the source strictly increases the
cursor, and when the fuel exceeds the remaining character count the
scanning loop stops only by reaching the end of the input
(`current ≥ length`). -/
theorem C10_scan_cursor_strictly_increases :
    (∀ s : Scanner, s.current < s.source.length →
      s.current < (Scanner.scanToken s).current) ∧
    (∀ (fuel : Nat) (s : Scanner), s.source.length - s.current < fuel →
      (Scanner.scanTokensLoop fuel s).source.length ≤
        (Scanner.scanTokensLoop fuel s).current) :=
  ⟨fun s _ => (scanToken_step s).2, scanTokensLoop_exit⟩

theorem C10_witness :
    (Scanner.mk "ab".toList 0 0 0 [] []).current <
      (Scanner.scanToken (Scanner.mk "ab".toList 0 0 0 [] [])).current ∧
    (Scanner.scanTokensLoop 1 (Scanner.mk [] 0 0 0 [] [])).source.length ≤
      (Scanner.scanTokensLoop 1 (Scanner.mk [] 0 0 0 [] [])).current :=
  ⟨C10_scan_cursor_strictly_increases.1 _ (by decide),
   C10_scan_cursor_strictly_increases.2 1 _ (by decide)⟩

/-- C1 counterexample: evaluating the expression parsed from `"!nil"` does
NOT yield true; it yields false, because the parser represents the `nil`
literal as the string `"null"`, which is truthy. -/
theorem C1_counterexample :
    runSource "!nil" = .ok (.ok (.bool false)) ∧
    runSource "!nil" ≠ .ok (.ok (.bool true)) := by
  with_unfolding_all decide

/-- C1 (amended): evaluating `"!nil"` yields false (the `nil` literal is
parsed as the truthy string `"null"`), and evaluating `"!0"` yields false
(numeric zero is truthy). -/
theorem C1_bang_nil_and_zero :
    runSource "!nil" = .ok (.ok (.bool false)) ∧
    runSource "!0" = .ok (.ok (.bool false)) := by
  with_unfolding_all decide

/-- C3: the token sequence of `"1 2"` — a valid expression's tokens
followed by a trailing NUMBER token before EOF — parses successfully to
the leading literal `1` with no syntax error; the trailing token is
silently ignored. -/
theorem C3_trailing_tokens_silently_ignored :
    (ScanTokens "1 2").1 =
      [{ typ := .NUMBER, Lexeme := "1", Literal := .num (.finite 1), Line := 0 },
       { typ := .NUMBER, Lexeme := "2", Literal := .num (.finite 2), Line := 0 },
       { typ := .EOF, Lexeme := "", Literal := .nilV, Line := 0 }] ∧
    Parse (ScanTokens "1 2").1 = .ok (.Literal (.num (.finite 1))) := by
  with_unfolding_all decide

/-- C9: scanning an empty (or whitespace-only) source yields only the EOF
token, and parsing that sequence returns a syntax error whose message
contains "Expect expression" (the error is raised at the EOF sentinel
itself, which the `isAtEnd`-guarded cursor never moves past). -/
theorem C9_empty_input_expect_expression :
    ScanTokens "" = ([{ typ := .EOF, Lexeme := "", Literal := .nilV, Line := 0 }], []) ∧
    ScanTokens "   " = ([{ typ := .EOF, Lexeme := "", Literal := .nilV, Line := 0 }], []) ∧
    Parse [{ typ := .EOF, Lexeme := "", Literal := .nilV, Line := 0 }] =
      .error ⟨" EOF 0 at 'Expect expression'"⟩ ∧
    List.IsInfix "Expect expression".toList " EOF 0 at 'Expect expression'".toList := by
  with_unfolding_all decide

theorem goEq_comm (x y : GoFloat) : x.goEq y = y.goEq x := by
  cases x <;> cases y <;> simp [GoFloat.goEq, eq_comm]

/-- C4 counterexample: the interpreter's equality is NOT reflexive over
every 64-bit float: the NaN value (producible by the program itself, e.g.
by evaluating `0 / 0`) compares unequal to itself, so `a == a` evaluates
to false for `a = NaN`. -/
theorem C4_counterexample :
    isEqual (.num .nan) (.num .nan) = false ∧
    runSource "0 / 0 == 0 / 0" = .ok (.ok (.bool false)) := by
  with_unfolding_all decide

/-- C4 (amended): the interpreter's equality test is symmetric over every
runtime value kind, reflexive for every value except the NaN float, and
the absent/null value compares equal only to itself and unequal to every
value of any other kind. -/
theorem C4_equality_symmetric_reflexive (a b : GoValue) :
    isEqual a b = isEqual b a ∧
    (a ≠ .num .nan → isEqual a a = true) ∧
    (isEqual .nilV b = true ↔ b = .nilV) := by
  refine ⟨?_, ?_, ?_⟩
  · cases a <;> cases b <;> simp [isEqual, goEq_comm, eq_comm]
  · intro h
    cases a with
    | nilV => rfl
    | num x => cases x <;> simp_all [isEqual, GoFloat.goEq]
    | str s => simp [isEqual]
    | bool b => simp [isEqual]
  · cases b <;> simp [isEqual]

theorem C4_witness :
    isEqual (.str "a") .nilV = isEqual .nilV (.str "a") ∧
    isEqual (.str "a") (.str "a") = true ∧
    (isEqual .nilV (.bool false) = true ↔ .bool false = GoValue.nilV) :=
  ⟨(C4_equality_symmetric_reflexive (.str "a") .nilV).1,
   (C4_equality_symmetric_reflexive (.str "a") .nilV).2.1 (by decide),
   (C4_equality_symmetric_reflexive (.str "a") (.bool false)).2.2⟩

/-- C7: evaluating a Binary `+` node returns the numeric sum when both
operands evaluate to numbers, the concatenation when both evaluate to
strings, and raises the runtime error "Operands must be two numbers or
two strings" for every other combination of operand kinds. -/
theorem C7_plus_numbers_strings_or_error (t : Token) (L R : Expr) (vl vr : GoValue)
    (ht : t.typ = .PLUS) (hL : eval L = .ok vl) (hR : eval R = .ok vr) :
    eval (.Binary t L R) =
      match vl, vr with
      | .num a, .num b => .ok (.num (a.add b))
      | .str a, .str b => .ok (.str (a ++ b))
      | _, _ => .error ⟨plusMsg t⟩ := by
  simp only [eval, hL, hR, exbind_ok, ht]
  cases vl <;> cases vr <;> rfl

theorem C7_witness :
    eval (.Binary { typ := .PLUS, Lexeme := "+", Literal := .nilV, Line := 0 }
        (.Literal (.num (.finite 1))) (.Literal (.num (.finite 2)))) =
      .ok (.num ((GoFloat.finite 1).add (.finite 2))) :=
  C7_plus_numbers_strings_or_error { typ := .PLUS, Lexeme := "+", Literal := .nilV, Line := 0 }
    (.Literal (.num (.finite 1))) (.Literal (.num (.finite 2)))
    (.num (.finite 1)) (.num (.finite 2)) rfl rfl rfl

/-- C2: binary `or` and `and` are not short-circuiting: with the left
operand already evaluated to `vl`, the node's result is exactly the right
operand's evaluation mapped through the boolean combination — so a
runtime error from the right operand propagates even when `vl`'s
truthiness alone determines the outcome (shown concretely on
`"true or -nil"`), and on success the result is the OR/AND of the two
operands' truthiness with no restriction on operand types. -/
theorem C2_or_and_both_operands_evaluated (t : Token) (L R : Expr) (vl : GoValue)
    (hL : eval L = .ok vl) :
    (t.typ = .OR → eval (.Binary t L R) =
      (eval R).map fun vr => .bool (isTruthy vl || isTruthy vr)) ∧
    (t.typ = .AND → eval (.Binary t L R) =
      (eval R).map fun vr => .bool (isTruthy vl && isTruthy vr)) ∧
    runSource "true or -nil" =
      .ok (.error ⟨numMsg { typ := .MINUS, Lexeme := "-", Literal := .nilV, Line := 0 }⟩) := by
  refine ⟨fun ht => ?_, fun ht => ?_, by with_unfolding_all decide⟩ <;>
    · simp only [eval, hL, exbind_ok, ht]
      cases hR : eval R <;> simp [Except.map, exbind_ok, exbind_error]

theorem C2_witness :
    eval (.Binary { typ := .OR, Lexeme := "or", Literal := .nilV, Line := 0 }
        (.Literal (.bool true))
        (.Unary { typ := .MINUS, Lexeme := "-", Literal := .nilV, Line := 0 }
          (.Literal (.str "s")))) =
      (eval (.Unary { typ := .MINUS, Lexeme := "-", Literal := .nilV, Line := 0 }
        (.Literal (.str "s")))).map
        (fun vr => .bool (isTruthy (.bool true) || isTruthy vr)) :=
  (C2_or_and_both_operands_evaluated { typ := .OR, Lexeme := "or", Literal := .nilV, Line := 0 }
    (.Literal (.bool true))
    (.Unary { typ := .MINUS, Lexeme := "-", Literal := .nilV, Line := 0 }
      (.Literal (.str "s")))
    (.bool true) rfl).1 rfl

/-- C8: for every token sequence, `Parse` returns either an expression
tree with no error or exactly one syntax error with no tree, never both
(the panic/recover channel yields a single outcome); the first grammar
violation aborts the parse, shown concretely on `"( )"`: the error
reported is the "Expect expression" failure at the `)` token, and the
unclosed parenthesis is never separately reported. -/
theorem C8_parse_single_outcome :
    (∀ ts : List Token,
      (∃ e, Parse ts = .ok e ∧ ∀ err, Parse ts ≠ .error err) ∨
      (∃ err, Parse ts = .error err ∧ ∀ e, Parse ts ≠ .ok e)) ∧
    Parse (ScanTokens "( )").1 =
      .error (perror { typ := .RIGHT_PAREN, Lexeme := ")", Literal := .nilV, Line := 0 }
        "Expect expression") := by
  constructor
  · intro ts
    cases h : Parse ts with
    | ok e => exact Or.inl ⟨e, rfl, fun err hc => Except.noConfusion hc⟩
    | error err => exact Or.inr ⟨err, rfl, fun e hc => Except.noConfusion hc⟩
  · with_unfolding_all decide

theorem C8_witness :
    (∃ e, Parse [{ typ := .EOF, Lexeme := "", Literal := .nilV, Line := 0 }] = .ok e ∧
      ∀ err, Parse [{ typ := .EOF, Lexeme := "", Literal := .nilV, Line := 0 }] ≠ .error err) ∨
    (∃ err, Parse [{ typ := .EOF, Lexeme := "", Literal := .nilV, Line := 0 }] = .error err ∧
      ∀ e, Parse [{ typ := .EOF, Lexeme := "", Literal := .nilV, Line := 0 }] ≠ .ok e) :=
  C8_parse_single_outcome.1 _

/-- C6: every binary precedence level of the parser is left-associative:
for operators OP₁, OP₂ of the same level (equality, comparison, term or
factor) and NUMBER operand tokens a, b, c, parsing `a OP₁ b OP₂ c` yields
`Binary(OP₂, Binary(OP₁, a, b), c)`; in particular parsing `"1 + 2 + 3"`
and rendering via the printer yields `"(+ (+ 1 2) 3)"`. -/
theorem C6_binary_levels_left_associative :
    (∀ a t1 b t2 c e : Token,
      a.typ = .NUMBER → b.typ = .NUMBER → c.typ = .NUMBER → e.typ = .EOF →
      ((t1.typ = .EQUAL_EQUAL ∨ t1.typ = .BANG_EQUAL) →
        (t2.typ = .EQUAL_EQUAL ∨ t2.typ = .BANG_EQUAL) →
        Parse [a, t1, b, t2, c, e] =
          .ok (.Binary t2 (.Binary t1 (.Literal a.Literal) (.Literal b.Literal))
            (.Literal c.Literal))) ∧
      ((t1.typ = .GREATER ∨ t1.typ = .GREATER_EQUAL ∨ t1.typ = .LESS ∨
          t1.typ = .LESS_EQUAL) →
        (t2.typ = .GREATER ∨ t2.typ = .GREATER_EQUAL ∨ t2.typ = .LESS ∨
          t2.typ = .LESS_EQUAL) →
        Parse [a, t1, b, t2, c, e] =
          .ok (.Binary t2 (.Binary t1 (.Literal a.Literal) (.Literal b.Literal))
            (.Literal c.Literal))) ∧
      ((t1.typ = .PLUS ∨ t1.typ = .MINUS ∨ t1.typ = .OR) →
        (t2.typ = .PLUS ∨ t2.typ = .MINUS ∨ t2.typ = .OR) →
        Parse [a, t1, b, t2, c, e] =
          .ok (.Binary t2 (.Binary t1 (.Literal a.Literal) (.Literal b.Literal))
            (.Literal c.Literal))) ∧
      ((t1.typ = .STAR ∨ t1.typ = .SLASH ∨ t1.typ = .AND) →
        (t2.typ = .STAR ∨ t2.typ = .SLASH ∨ t2.typ = .AND) →
        Parse [a, t1, b, t2, c, e] =
          .ok (.Binary t2 (.Binary t1 (.Literal a.Literal) (.Literal b.Literal))
            (.Literal c.Literal)))) ∧
    (Parse (ScanTokens "1 + 2 + 3").1).map printExpr = .ok "(+ (+ 1 2) 3)" := by
  constructor
  · intro a t1 b t2 c e ha hb hc he
    exact ⟨fun h1 h2 => equalityLevelAssoc a t1 b t2 c e ha hb hc he h1 h2,
      fun h1 h2 => comparisonLevelAssoc a t1 b t2 c e ha hb hc he h1 h2,
      fun h1 h2 => termLevelAssoc a t1 b t2 c e ha hb hc he h1 h2,
      fun h1 h2 => factorLevelAssoc a t1 b t2 c e ha hb hc he h1 h2⟩
  · with_unfolding_all decide

theorem C6_witness :
    Parse [{ typ := .NUMBER, Lexeme := "1", Literal := .num (.finite 1), Line := 0 },
           { typ := .PLUS, Lexeme := "+", Literal := .nilV, Line := 0 },
           { typ := .NUMBER, Lexeme := "2", Literal := .num (.finite 2), Line := 0 },
           { typ := .PLUS, Lexeme := "+", Literal := .nilV, Line := 0 },
           { typ := .NUMBER, Lexeme := "3", Literal := .num (.finite 3), Line := 0 },
           { typ := .EOF, Lexeme := "", Literal := .nilV, Line := 0 }] =
      .ok (.Binary { typ := .PLUS, Lexeme := "+", Literal := .nilV, Line := 0 }
        (.Binary { typ := .PLUS, Lexeme := "+", Literal := .nilV, Line := 0 }
          (.Literal (.num (.finite 1))) (.Literal (.num (.finite 2))))
        (.Literal (.num (.finite 3)))) :=
  (C6_binary_levels_left_associative.1 _ _ _ _ _ _ rfl rfl rfl rfl).2.2.1
    (Or.inl rfl) (Or.inl rfl)
